import Mathlib

/-!
Verification development for the elastic-funcionando CSV-to-Elasticsearch
ingestion pipeline.  The Python sources (index_elastic.py, dadospop.py,
index_estados.py, indexador_streamlit.py) are shallowly embedded below:
pandas cell values become the inductive type `PyVal`, dataframes become
`Frame` (a column list plus rows of key-value pairs), the per-field
coercions of `process_csv` become total Lean functions, and the external
Elasticsearch sink is modelled from its spec contract where the claims
need it.
-/

/-- A Python/pandas cell value as it occurs in this pipeline.
`nan` models a floating not-a-number (np.nan / float nan), `natT` models
pandas NaT, `pnone` models Python None, `pdatetime` models a midnight
pandas Timestamp (the only kind this pipeline produces, via format
"%d%m%Y"), and `pgeoDict` models the dict with keys lat and lon built by
the geo-point composition. -/
inductive PyVal where
  | pnone : PyVal
  | nan : PyVal
  | natT : PyVal
  | pstr : String → PyVal
  | pint : Int → PyVal
  | pfloat : Rat → PyVal
  | pdatetime : Nat → Nat → Nat → PyVal
  | pgeoDict : PyVal → PyVal → PyVal
deriving DecidableEq, Repr

/-- Gregorian leap-year test, as used by Python's datetime validation. -/
def isLeapYear (y : Nat) : Bool :=
  (y % 4 == 0 && y % 100 != 0) || (y % 400 == 0)

/-- Number of days in a month, as enforced by datetime.datetime. -/
def daysInMonth (y m : Nat) : Nat :=
  if m == 2 then (if isLeapYear y then 29 else 28)
  else if m == 4 || m == 6 || m == 9 || m == 11 then 30
  else 31

/-- Zero-padded two-digit rendering, as datetime.isoformat renders
months and days. -/
def pad2 (n : Nat) : String :=
  if n < 10 then "0" ++ toString n else toString n

/-- Zero-padded four-digit rendering, as datetime.isoformat renders the
year. -/
def pad4 (n : Nat) : String :=
  if n < 10 then "000" ++ toString n
  else if n < 100 then "00" ++ toString n
  else if n < 1000 then "0" ++ toString n
  else toString n

/-- `Timestamp(y, m, d).isoformat()` for a midnight timestamp: the
ISO-8601 date-time string with no timezone, e.g. "2020-01-01T00:00:00". -/
def isoOfYmd (y m d : Nat) : String :=
  pad4 y ++ "-" ++ pad2 m ++ "-" ++ pad2 d ++ "T00:00:00"

/-- Value of a decimal digit character, none for a non-digit. -/
def digitVal (c : Char) : Option Nat :=
  if c.isDigit then some (c.toNat - 48) else none

/-- One alternative of a TimeRE alternation: applied to the remaining
characters, yields the matched value and how many characters it
consumed, or none when the alternative does not match here. -/
abbrev AltMatcher : Type := List Char → Option (Nat × Nat)

/-- A two-digit alternative whose two-digit value must lie in
[lo, hi]; this encodes TimeRE's value-constrained pairs such as
"3[01]" (30-31), "[12]" then a digit (10-29), and "0[1-9]" (01-09). -/
def altTwoDigit (lo hi : Nat) : AltMatcher := fun cs =>
  match cs with
  | c1 :: c2 :: _ =>
    match digitVal c1, digitVal c2 with
    | some a, some b =>
      let v := a * 10 + b
      if lo ≤ v ∧ v ≤ hi then some (v, 2) else none
    | _, _ => none
  | _ => none

/-- The one-digit alternative "[1-9]": a single non-zero digit. -/
def altOneDigit : AltMatcher := fun cs =>
  match cs with
  | c :: _ =>
    match digitVal c with
    | some a => if 1 ≤ a then some (a, 1) else none
    | none => none
  | [] => none

/-- The blank-padded alternative of %d: a space then "[1-9]". -/
def altSpaceDigit : AltMatcher := fun cs =>
  match cs with
  | c1 :: c2 :: _ =>
    if c1 == ' ' then
      match digitVal c2 with
      | some a => if 1 ≤ a then some (a, 2) else none
      | none => none
    else none
  | _ => none

/-- TimeRE's pattern for %d, alternation order preserved:
"3[01]", "[12]" digit, "0[1-9]", "[1-9]", space "[1-9]". -/
def dayAlts : List AltMatcher :=
  [altTwoDigit 30 31, altTwoDigit 10 29, altTwoDigit 1 9, altOneDigit,
   altSpaceDigit]

/-- TimeRE's pattern for %m, alternation order preserved:
"1[0-2]", "0[1-9]", "[1-9]". -/
def monthAlts : List AltMatcher :=
  [altTwoDigit 10 12, altTwoDigit 1 9, altOneDigit]

/-- TimeRE's pattern for %Y: exactly four digits. -/
def matchYear4 (cs : List Char) : Option Nat :=
  match cs with
  | c1 :: c2 :: c3 :: c4 :: _ =>
    match digitVal c1, digitVal c2, digitVal c3, digitVal c4 with
    | some a, some b, some c, some d =>
      some (a * 1000 + b * 100 + c * 10 + d)
    | _, _, _, _ => none
  | _ => none

/-- Matches %m%Y at the current position the way the regex engine
does: month alternatives are tried in alternation order, and a year
failure backtracks to the next month alternative.  Yields the month,
the year and the characters consumed. -/
def matchMY (cs : List Char) : List AltMatcher → Option (Nat × Nat × Nat)
  | [] => none
  | alt :: alts =>
    match alt cs with
    | some (m, w) =>
      match matchYear4 (cs.drop w) with
      | some y => some (m, y, w + 4)
      | none => matchMY cs alts
    | none => matchMY cs alts

/-- Matches %d%m%Y from the start of the string the way the regex
engine does: day alternatives in alternation order outermost, with any
failure of the rest backtracking to the next day alternative.  Yields
day, month, year and the characters consumed (the match end). -/
def matchDMY (cs : List Char) : List AltMatcher → Option (Nat × Nat × Nat × Nat)
  | [] => none
  | alt :: alts =>
    match alt cs with
    | some (d, w) =>
      match matchMY (cs.drop w) monthAlts with
      | some (m, y, k) => some (d, m, y, w + k)
      | none => matchDMY cs alts
    | none => matchDMY cs alts

/-- `datetime.strptime(s, "%d%m%Y")` restricted to its success/failure
behaviour and resulting (year, month, day), as CPython's _strptime
(reused by pandas' array_strptime) executes it: the TimeRE-compiled
regex is matched against a prefix of the string with backtracking over
the value-constrained alternations; a leftover suffix is the
"unconverted data remains" error; then datetime construction validates
the calendar date (day against month length, year at least 1). -/
def strptimeDMY (s : String) : Option (Nat × Nat × Nat) :=
  let cs := s.toList
  match matchDMY cs dayAlts with
  | none => none
  | some (d, m, y, endPos) =>
    if endPos == cs.length then
      if 1 ≤ y ∧ 1 ≤ d ∧ d ≤ daysInMonth y m then some (y, m, d) else none
    else none

/-- Midnight dates representable as a pandas Timestamp (nanosecond
epoch bounds: 1677-09-21T00:12:43 to 2262-04-11T23:47:16, so midnights
from 1677-09-22 through 2262-04-11); a strptime result outside these
bounds raises OutOfBoundsDatetime, which errors="coerce" turns into
NaT. -/
def inTimestampBounds (y m d : Nat) : Bool :=
  16770922 ≤ y * 10000 + m * 100 + d && y * 10000 + m * 100 + d ≤ 22620411

/-- One element of `pd.to_datetime(_, format="%d%m%Y", errors="coerce")`
applied to a string: a midnight Timestamp on success, NaT on any parse
or bounds failure (coerce never raises). -/
def toDatetimeStr (s : String) : PyVal :=
  match strptimeDMY s with
  | some (y, m, d) =>
    if inTimestampBounds y m d then PyVal.pdatetime y m d else PyVal.natT
  | none => PyVal.natT

/-- One element of `pd.to_datetime(_, format="%d%m%Y", errors="coerce")`
on an arbitrary cell: missing values map to NaT, strings are parsed,
integers are parsed via their decimal rendering (array_strptime
stringifies non-string scalars), a float rendering contains a decimal
point so never matches the all-digit format, and values that cannot be
converted coerce to NaT. -/
def toDatetimeCell (v : PyVal) : PyVal :=
  match v with
  | PyVal.pstr s => toDatetimeStr s
  | PyVal.pint n => toDatetimeStr (toString n)
  | PyVal.pdatetime y m d => PyVal.pdatetime y m d
  | _ => PyVal.natT

example : toDatetimeStr "01012020" = PyVal.pdatetime 2020 1 1 := by decide
example : toDatetimeStr "99999999" = PyVal.natT := by decide
example : toDatetimeStr "29022019" = PyVal.natT := by decide
example : toDatetimeStr "29022020" = PyVal.pdatetime 2020 2 29 := by decide
example : toDatetimeStr "1012020" = PyVal.pdatetime 2020 1 10 := by decide
example : toDatetimeStr "4012020" = PyVal.pdatetime 2020 1 4 := by decide
example : toDatetimeStr "1102020" = PyVal.pdatetime 2020 10 1 := by decide
example : toDatetimeStr "9122020" = PyVal.pdatetime 2020 12 9 := by decide
example : toDatetimeStr "111999" = PyVal.pdatetime 1999 1 1 := by decide
example : toDatetimeStr "29/02/2020" = PyVal.natT := by decide
example : isoOfYmd 2020 1 1 = "2020-01-01T00:00:00" := by decide

/-- `pd.notna` on a scalar cell: false exactly on the missing sentinels
None, nan and NaT. -/
def pdNotna (v : PyVal) : Bool :=
  match v with
  | PyVal.pnone => false
  | PyVal.nan => false
  | PyVal.natT => false
  | _ => true

/-- The geo-point row lambda of index_elastic.process_csv (lines 50-51):
the dict with the lat and lon cells when `pd.notna` holds of both, else
None. -/
def composeGeo (lat lon : PyVal) : PyVal :=
  if pdNotna lat && pdNotna lon then PyVal.pgeoDict lat lon else PyVal.pnone

/-- index_elastic.convert_to_serializable, branch for branch.  The
isinstance-datetime branch fires first; pd.NaT is an instance of
datetime, and `NaT.isoformat()` returns the string "NaT", so NaT is
stringified here rather than reaching the `pd.isna` branch.  Boxed
numpy scalars take the np.generic branch and have `.item()` applied
(a numpy nan stays a float nan there); remaining missing values hit
the `pd.isna` branch and become None; everything else is returned
unchanged. -/
def convert_to_serializable (v : PyVal) : PyVal :=
  match v with
  | PyVal.pdatetime y m d => PyVal.pstr (isoOfYmd y m d)
  | PyVal.natT => PyVal.pstr "NaT"
  | PyVal.pint n => PyVal.pint n
  | PyVal.pfloat q => PyVal.pfloat q
  | PyVal.nan => PyVal.nan
  | PyVal.pnone => PyVal.pnone
  | v => v

/-- One cell of `df.replace(\x7bnp.nan: None, pd.NaT: None\x7d)`
(index_elastic.process_csv line 63): nan and NaT become None, all other
values are untouched. -/
def replaceNaNone (v : PyVal) : PyVal :=
  match v with
  | PyVal.nan => PyVal.pnone
  | PyVal.natT => PyVal.pnone
  | v => v

/-- The data_obito lambda of index_elastic.process_csv (line 55):
`x.isoformat() if pd.notna(x) else None`, applied to the DTOBITO column
just coerced by to_datetime, whose cells are Timestamps or NaT; a
notna Timestamp renders as its ISO string, NaT renders as None. -/
def dataObitoCell (v : PyVal) : PyVal :=
  match v with
  | PyVal.pdatetime y m d => PyVal.pstr (isoOfYmd y m d)
  | v => if pdNotna v then v else PyVal.pnone

/-- A dataframe row: an ordered mapping from column name to cell. -/
abbrev Row : Type := List (String × PyVal)

/-- Reads a cell of a row; columns are looked up by name (used only
under the existence guards the source code itself performs). -/
def rowGet (r : Row) (c : String) : PyVal :=
  match List.find? (fun p => p.1 == c) r with
  | some p => p.2
  | none => PyVal.pnone

/-- Writes a cell of a row, replacing the existing entry of that column
or appending a new one at the end (pandas column assignment). -/
def rowSet (r : Row) (c : String) (v : PyVal) : Row :=
  if List.any r (fun p => p.1 == c) then
    List.map (fun p => if p.1 == c then (c, v) else p) r
  else r ++ [(c, v)]

/-- A dataframe: the column names and the rows. -/
structure Frame where
  cols : List String
  rows : List Row
deriving DecidableEq, Repr

/-- Column-existence test, `c in df.columns`. -/
def hasCol (f : Frame) (c : String) : Bool := f.cols.contains c

/-- `df[c] = df[c].map(g)`: transforms the cells of one column. -/
def mapCol (f : Frame) (c : String) (g : PyVal → PyVal) : Frame :=
  { cols := f.cols
    rows := f.rows.map (fun r => rowSet r c (g (rowGet r c))) }

/-- `df[c] = df.apply(g, axis=1)`: derives a column from whole rows,
appending the column name when new. -/
def addCol (f : Frame) (c : String) (g : Row → PyVal) : Frame :=
  { cols := if f.cols.contains c then f.cols else f.cols ++ [c]
    rows := f.rows.map (fun r => rowSet r c (g r)) }

/-- Applies a cell transformation to every column of the frame
(the `for col in df.columns: df[col] = df[col].apply(...)` loop and the
whole-frame replace). -/
def mapCells (f : Frame) (g : PyVal → PyVal) : Frame :=
  { cols := f.cols
    rows := f.rows.map (fun r => r.map (fun p => (p.1, g p.2))) }

/-- The five date columns coerced by index_elastic.process_csv line 44. -/
def date_columns : List String :=
  ["DTOBITO", "DTNASC", "DTATESTADO", "DTCADASTRO", "DTRECEBIM"]

/-- The `for col in date_columns` loop of process_csv (lines 45-46):
each column in turn is replaced by its to_datetime coercion; reading a
column absent from the frame raises KeyError, which the enclosing
catch-all handler turns into exit code 1. -/
def coerceDateCols : List String → Frame → Except Nat Frame
  | [], f => Except.ok f
  | c :: cs, f =>
    if hasCol f c then coerceDateCols cs (mapCol f c toDatetimeCell)
    else Except.error 1

/-- The geo-point composition step of process_csv (lines 49-51): when
both coordinate columns exist, derive res_coordenadas row by row. -/
def geoStep (f : Frame) : Frame :=
  if hasCol f "res_LATITUDE" && hasCol f "res_LONGITUDE" then
    addCol f "res_coordenadas"
      (fun r => composeGeo (rowGet r "res_LATITUDE") (rowGet r "res_LONGITUDE"))
  else f

/-- The data_obito step of process_csv (lines 53-57): derived from
DTOBITO when that column exists, otherwise the whole column is None. -/
def dataObitoStep (f : Frame) : Frame :=
  if hasCol f "DTOBITO" then
    addCol f "data_obito" (fun r => dataObitoCell (rowGet r "DTOBITO"))
  else
    addCol f "data_obito" (fun _ => PyVal.pnone)

/-- index_elastic.process_csv on an already-parsed frame: coerce the
five date columns (a missing one raises KeyError, made fatal with exit
code 1 by the catch-all handler), compose the res_coordenadas geo-point
when both coordinate columns exist, derive data_obito from DTOBITO (or
set it to None), convert every cell to a serializable value, replace
remaining nan/NaT by None, and return the rows as records. -/
def process_csv (f : Frame) : Except Nat (List Row) :=
  match coerceDateCols date_columns f with
  | Except.error e => Except.error e
  | Except.ok f1 =>
    Except.ok
      ((mapCells (mapCells (dataObitoStep (geoStep f1)) convert_to_serializable)
        replaceNaNone).rows)

/-- dadospop.parse_csv_file: csv.DictReader turns each data row into a
dict pairing the header names with the row's values, one record per
row. -/
def parse_csv_file (header : List String) (rows : List (List String)) :
    List (List (String × String)) :=
  rows.map (fun r => header.zip r)

/-- The encoding actually used to read the file: process_csv passes
chardet's detected encoding straight to pandas.read_csv, and read_csv
treats encoding=None (chardet's report when detection fails or its
confidence threshold is not met) as its default "utf-8".  The detector
itself is an external library; it is represented by its returned
optional encoding name. -/
def encodingForRead (detected : Option String) : String :=
  detected.getD "utf-8"

/-- Modelled from the spec: the Encoding Detector composed with the
reader's default — detection of a byte sample never raises, and the
chosen encoding falls back to utf-8 when the detector reports none. -/
def read_encoding (detector : List Nat → Option String) (sample : List Nat) :
    String :=
  encodingForRead (detector sample)

/-- Modelled from the spec: one bulk call of the external index sink
(`helpers.bulk(es, actions, raise_on_error=False)`), which decides each
document independently — represented by an arbitrary per-document
outcome predicate — and returns the pair of the succeeded count and the
list of failed documents, as index_data and index_csv_data unpack it. -/
def bulkSingle {α : Type} (outcome : α → Bool) (docs : List α) :
    Nat × List α :=
  ((docs.filter outcome).length, docs.filter (fun d => !(outcome d)))

/-- Bulk submission split into an arbitrary sequence of batches: each
batch is submitted with `bulkSingle`, the succeeded counts are summed
and the failed lists concatenated (how helpers.bulk aggregates its
internal chunks for any chunk size). -/
def bulkChunks {α : Type} (outcome : α → Bool) :
    List (List α) → Nat × List α
  | [] => (0, [])
  | c :: cs =>
    let r := bulkSingle outcome c
    let rest := bulkChunks outcome cs
    (r.1 + rest.1, r.2 ++ rest.2)

/-- Modelled from the spec: the index sink's catalogue of existing
indices, a list of (name, mapping) pairs. -/
abbrev ESState (μ : Type) : Type := List (String × μ)

/-- Modelled from the spec: `es.indices.exists(index=n)`. -/
def indicesExists {μ : Type} (st : ESState μ) (n : String) : Bool :=
  st.any (fun p => p.1 == n)

/-- Modelled from the spec: `es.indices.delete(index=n)` removes the
index of that name. -/
def indicesDelete {μ : Type} (st : ESState μ) (n : String) : ESState μ :=
  st.filter (fun p => p.1 != n)

/-- Modelled from the spec: `es.indices.create(index=n, body=m)`; the
engine rejects creation when an index of that name already exists
(resource_already_exists), hence the Option result. -/
def indicesCreate {μ : Type} (st : ESState μ) (n : String) (m : μ) :
    Option (ESState μ) :=
  if indicesExists st n then none else some ((n, m) :: st)

/-- The create_index guard shared by index_elastic.create_index,
dadospop.create_index, index_estados.create_estados_index and
indexador_streamlit.create_index: if an index of the name exists it is
deleted first, then the index is created with the given mapping. -/
def create_index {μ : Type} (st : ESState μ) (n : String) (m : μ) :
    Option (ESState μ) :=
  let st1 := if indicesExists st n then indicesDelete st n else st
  indicesCreate st1 n m

/-- The keyword sub-field emitted by the dynamic schema builders. -/
structure KeywordField where
  ftype : String
  ignoreAbove : Nat
deriving DecidableEq, Repr

/-- The per-key property emitted by the dynamic schema builders: a main
type plus the keyword sub-field. -/
structure TextProp where
  ftype : String
  keywordField : KeywordField
deriving DecidableEq, Repr

/-- The property dadospop.create_index (lines 56-61) and
indexador_streamlit.create_index (lines 22-32) assign to every key of
the sample record: type text with a keyword sub-field ignoring values
above 256 bytes. -/
def dynFieldProp : TextProp :=
  { ftype := "text", keywordField := { ftype := "keyword", ignoreAbove := 256 } }

/-- The `for key in sample_record.keys()` loop of dadospop.create_index
(lines 54-61): builds the properties dict assigning `dynFieldProp` to
every key of the sample record. -/
def buildProperties (keys : List String) : List (String × TextProp) :=
  keys.map (fun k => (k, dynFieldProp))

/-- The failure-artifact naming convention of dadospop.index_csv_data
(line 88), index_estados.index_estados_data (line 90) and
indexador_streamlit.index_data (line 54). -/
def failedDocsFileName (index_name : String) : String :=
  "failed_docs_" ++ index_name ++ ".json"

/-- The failure sink of dadospop.index_csv_data (lines 84-89): when the
failed list is non-empty it is dumped to the file named from the index,
otherwise nothing is written; the result is the written (file name,
contents) pair. -/
def index_csv_data_failfile {α : Type} (index_name : String)
    (failed : List α) : Option (String × List α) :=
  if failed.isEmpty then none
  else some (failedDocsFileName index_name, failed)

/-- The failure sink of index_elastic.index_data (lines 256-260): when
the failed list is non-empty it is dumped to the constant file name
"failed_docs.json", with no reference to the index being loaded. -/
def index_data_failfile {α : Type} (failed : List α) :
    Option (String × List α) :=
  if failed.isEmpty then none
  else some ("failed_docs.json", failed)


/-! ## Helper lemmas -/

theorem length_filter_add_length_filter_not {α : Type} (p : α → Bool)
    (l : List α) :
    (l.filter p).length + (l.filter (fun x => !(p x))).length = l.length := by
  induction l with
  | nil => rfl
  | cons a l ih =>
    cases h : p a <;> simp [List.filter_cons, h] <;> omega

theorem mem_delete_ne {μ : Type} (st : ESState μ) (n : String) :
    ∀ q ∈ indicesDelete st n, (q.1 == n) = false := by
  intro q hq
  simp only [indicesDelete] at hq
  have h := List.of_mem_filter hq
  simpa using h

theorem indicesExists_delete {μ : Type} (st : ESState μ) (n : String) :
    indicesExists (indicesDelete st n) n = false := by
  rw [Bool.eq_false_iff]
  intro hcon
  simp only [indicesExists, List.any_eq_true] at hcon
  obtain ⟨q, hq, hqn⟩ := hcon
  rw [mem_delete_ne st n q hq] at hqn
  cases hqn

theorem countP_delete {μ : Type} (st : ESState μ) (n : String) :
    (indicesDelete st n).countP (fun p => p.1 == n) = 0 := by
  rw [List.countP_eq_zero]
  intro q hq
  rw [mem_delete_ne st n q hq]
  simp

theorem exists_after_guard {μ : Type} (st : ESState μ) (n : String) :
    indicesExists (if indicesExists st n then indicesDelete st n else st) n
      = false := by
  by_cases h : indicesExists st n
  · simp [h, indicesExists_delete]
  · simp only [Bool.not_eq_true] at h
    simp [h]

/-! ## Claims -/

/-- C1: date fields are parsed with the fixed day-month-year
no-separator format: the raw value "01012020" parses to the midnight
timestamp 2020-01-01 and normalizes to the ISO-8601 string
"2020-01-01T00:00:00", while the unparseable raw value "99999999"
coerces to NaT (no exception is raised) and normalizes to null. -/
theorem C1_date_fixed_format_roundtrip :
    toDatetimeCell (PyVal.pstr "01012020") = PyVal.pdatetime 2020 1 1 ∧
    dataObitoCell (toDatetimeCell (PyVal.pstr "01012020")) =
      PyVal.pstr "2020-01-01T00:00:00" ∧
    toDatetimeCell (PyVal.pstr "99999999") = PyVal.natT ∧
    dataObitoCell (toDatetimeCell (PyVal.pstr "99999999")) = PyVal.pnone := by
  decide

/-- C4: for every per-document outcome and every way of splitting the
submitted documents into batches, the succeeded count plus the number
of failed documents returned by the bulk submission equals the total
number of documents submitted. -/
theorem C4_bulk_outcome_partition {α : Type} (outcome : α → Bool)
    (chunks : List (List α)) :
    (bulkChunks outcome chunks).1 + (bulkChunks outcome chunks).2.length
      = chunks.flatten.length := by
  induction chunks with
  | nil => rfl
  | cons c cs ih =>
    have hc := length_filter_add_length_filter_not outcome c
    simp only [bulkChunks, bulkSingle, List.flatten_cons, List.length_append] at *
    omega

/-- C7: encoding detection is never fatal — for every detector and
every byte sample, the pipeline obtains an encoding name to read the
file with: the detected name when the detector reports one, and the
utf-8 default when detection fails, so parsing always proceeds. -/
theorem C7_encoding_detection_total (detector : List Nat → Option String)
    (sample : List Nat) :
    (detector sample = none ∧ read_encoding detector sample = "utf-8") ∨
    (∃ e, detector sample = some e ∧ read_encoding detector sample = e) := by
  cases h : detector sample with
  | none => exact Or.inl ⟨rfl, by simp [read_encoding, encodingForRead, h]⟩
  | some e =>
    exact Or.inr ⟨e, rfl, by simp [read_encoding, encodingForRead, h]⟩

/-- A cell of a float-typed dataframe column (the dtype pandas infers
for the coordinate columns, declared float in the static mapping as
well): either the missing marker nan or a float. -/
def isFloatCell (v : PyVal) : Prop :=
  v = PyVal.nan ∨ ∃ q : Rat, v = PyVal.pfloat q

/-- Whether a cell holds a non-null numeric value. -/
def isNumericVal (v : PyVal) : Bool :=
  match v with
  | PyVal.pfloat _ => true
  | PyVal.pint _ => true
  | _ => false

/-- Whether a value is the combined lat/lon structure. -/
def isGeoStruct (v : PyVal) : Bool :=
  match v with
  | PyVal.pgeoDict _ _ => true
  | _ => false

/-- C2: for float-typed latitude and longitude cells, the derived
geo-point is the combined lat/lon structure exactly when both
components are non-null numeric; the combined structure carries both
components, and when either component is missing the derived field is
None, never a partial structure. -/
theorem C2_geo_point_iff_both_nonnull (lat lon : PyVal)
    (hlat : isFloatCell lat) (hlon : isFloatCell lon) :
    (isGeoStruct (composeGeo lat lon) = true ↔
      (isNumericVal lat = true ∧ isNumericVal lon = true)) ∧
    (∀ a b : Rat, lat = PyVal.pfloat a → lon = PyVal.pfloat b →
      composeGeo lat lon = PyVal.pgeoDict (PyVal.pfloat a) (PyVal.pfloat b)) ∧
    ((isNumericVal lat = false ∨ isNumericVal lon = false) →
      composeGeo lat lon = PyVal.pnone) := by
  rcases hlat with h | ⟨a, h⟩ <;> rcases hlon with h2 | ⟨b, h2⟩ <;>
    subst h <;> subst h2 <;>
    simp [composeGeo, pdNotna, isNumericVal, isGeoStruct]

/-- Witness for C2 at the spec's example coordinates
lat = -23.55, lon = -46.63, and at a missing latitude. -/
theorem C2_geo_point_iff_both_nonnull_witness :
    isFloatCell (PyVal.pfloat (-2355/100)) ∧
    composeGeo (PyVal.pfloat (-2355/100)) (PyVal.pfloat (-4663/100)) =
      PyVal.pgeoDict (PyVal.pfloat (-2355/100)) (PyVal.pfloat (-4663/100)) ∧
    composeGeo PyVal.nan (PyVal.pfloat (-4663/100)) = PyVal.pnone :=
  ⟨Or.inr ⟨_, rfl⟩,
    (C2_geo_point_iff_both_nonnull _ _ (Or.inr ⟨_, rfl⟩)
      (Or.inr ⟨_, rfl⟩)).2.1 _ _ rfl rfl,
    (C2_geo_point_iff_both_nonnull _ _ (Or.inl rfl)
      (Or.inr ⟨_, rfl⟩)).2.2 (Or.inl rfl)⟩

/-- C5: create-index is idempotent with delete-then-create semantics —
from any sink state, running create_index twice with the same name
succeeds both times (the deletion guarded by the existence check makes
the final create succeed), and afterwards exactly one index of that
name exists, carrying the latest mapping. -/
theorem create_index_eq {μ : Type} (st : ESState μ) (n : String) (m : μ) :
    create_index st n m =
      some ((n, m) ::
        (if indicesExists st n then indicesDelete st n else st)) := by
  simp [create_index, indicesCreate, exists_after_guard]

theorem C5_create_index_delete_then_create {μ : Type} (st : ESState μ)
    (n : String) (m1 m2 : μ) :
    ∃ st1 st2,
      create_index st n m1 = some st1 ∧
      create_index st1 n m2 = some st2 ∧
      st2.countP (fun p => p.1 == n) = 1 ∧
      List.lookup n st2 = some m2 := by
  refine ⟨(n, m1) :: (if indicesExists st n then indicesDelete st n else st),
    (n, m2) :: indicesDelete
      ((n, m1) :: (if indicesExists st n then indicesDelete st n else st)) n,
    create_index_eq st n m1, ?_, ?_, ?_⟩
  · rw [create_index_eq]
    have h1 : indicesExists
        ((n, m1) :: (if indicesExists st n then indicesDelete st n else st)) n
        = true := by simp [indicesExists]
    simp only [h1]
    simp
  · simp [List.countP_cons, countP_delete]
  · simp [List.lookup]

/-- C6 counterexample: index_elastic.index_data persists a non-empty
failure list for the index "obitos" (the index this script loads) to
the constant file name "failed_docs.json", which is not the name
"failed_docs_obitos.json" the claimed convention derives from the index
identifier. -/
theorem C6_fixed_failfile_counterexample :
    index_data_failfile [PyVal.pint 0] =
      some ("failed_docs.json", [PyVal.pint 0]) ∧
    "failed_docs.json" ≠ failedDocsFileName "obitos" := by
  exact ⟨rfl, by decide⟩

/-- C6 amended: when the failure list is non-empty it is always
persisted, but only dadospop.index_csv_data (and likewise
index_estados and the streamlit indexer) derive the file name from the
index identifier as failed_docs_<index>.json;
index_elastic.index_data writes the fixed name "failed_docs.json"
regardless of the index. -/
theorem C6_failfile_naming_amended {α : Type} (index_name : String)
    (failed : List α) (h : failed ≠ []) :
    index_csv_data_failfile index_name failed =
      some (failedDocsFileName index_name, failed) ∧
    index_data_failfile failed = some ("failed_docs.json", failed) := by
  have he : failed.isEmpty = false := by
    cases failed with
    | nil => exact absurd rfl h
    | cons a l => rfl
  constructor <;> simp [index_csv_data_failfile, index_data_failfile, he]

/-- Witness for C6 amended at a one-element failure list and the index
"dados_csv". -/
theorem C6_failfile_naming_amended_witness :
    ([PyVal.pint 0] ≠ ([] : List PyVal)) ∧
    index_csv_data_failfile "dados_csv" [PyVal.pint 0] =
      some (failedDocsFileName "dados_csv", [PyVal.pint 0]) :=
  ⟨by decide,
    (C6_failfile_naming_amended "dados_csv" [PyVal.pint 0] (by decide)).1⟩

theorem lookup_buildProperties (keys : List String) :
    ∀ k, k ∈ keys → List.lookup k (buildProperties keys) = some dynFieldProp := by
  induction keys with
  | nil => intro k hk; cases hk
  | cons a tl ih =>
    intro k hk
    by_cases h : k = a
    · subst h
      simp [buildProperties, List.lookup]
    · rcases List.mem_cons.mp hk with h' | h'
      · exact absurd h' h
      · have hb : (k == a) = false := by simp [h]
        simpa [buildProperties, List.lookup, hb] using ih k h'

/-- C9: the dynamic schema builder emits one property per key of the
sample document, in order, and every key is mapped to the analyzed-text
type with an exact-match keyword sub-field bounded at 256; being a pure
function of the key list, the same sample always yields the same
mapping. -/
theorem C9_dynamic_schema_text_keyword (keys : List String) (k : String)
    (hk : k ∈ keys) :
    (buildProperties keys).map Prod.fst = keys ∧
    List.lookup k (buildProperties keys) =
      some { ftype := "text",
             keywordField := { ftype := "keyword", ignoreAbove := 256 } } :=
  ⟨by rw [buildProperties, List.map_map]; exact List.map_id keys,
    lookup_buildProperties keys k hk⟩

/-- Witness for C9 at the sample keys of the estados dataset. -/
theorem C9_dynamic_schema_text_keyword_witness :
    ("cod" ∈ ["cod", "nome", "sigla"]) ∧
    List.lookup "cod" (buildProperties ["cod", "nome", "sigla"]) =
      some { ftype := "text",
             keywordField := { ftype := "keyword", ignoreAbove := 256 } } :=
  ⟨by decide,
    (C9_dynamic_schema_text_keyword ["cod", "nome", "sigla"] "cod"
      (by decide)).2⟩

theorem mapCol_rows_length (f : Frame) (c : String) (g : PyVal → PyVal) :
    (mapCol f c g).rows.length = f.rows.length := by
  simp [mapCol]

theorem mapCol_cols (f : Frame) (c : String) (g : PyVal → PyVal) :
    (mapCol f c g).cols = f.cols := rfl

theorem addCol_rows_length (f : Frame) (c : String) (g : Row → PyVal) :
    (addCol f c g).rows.length = f.rows.length := by
  simp [addCol]

theorem mapCells_rows_length (f : Frame) (g : PyVal → PyVal) :
    (mapCells f g).rows.length = f.rows.length := by
  simp [mapCells]

theorem geoStep_rows_length (f : Frame) :
    (geoStep f).rows.length = f.rows.length := by
  unfold geoStep
  by_cases h : hasCol f "res_LATITUDE" && hasCol f "res_LONGITUDE"
  · simp [h, addCol_rows_length]
  · simp [h]

theorem dataObitoStep_rows_length (f : Frame) :
    (dataObitoStep f).rows.length = f.rows.length := by
  unfold dataObitoStep
  by_cases h : hasCol f "DTOBITO"
  · simp [h, addCol_rows_length]
  · simp [h, addCol_rows_length]

theorem coerceDateCols_length (cols : List String) (f f' : Frame)
    (h : coerceDateCols cols f = Except.ok f') :
    f'.rows.length = f.rows.length := by
  induction cols generalizing f with
  | nil =>
    simp only [coerceDateCols] at h
    cases h
    rfl
  | cons c cs ih =>
    simp only [coerceDateCols] at h
    by_cases hc : hasCol f c
    · rw [if_pos hc] at h
      have := ih (mapCol f c toDatetimeCell) h
      simpa [mapCol_rows_length] using this
    · rw [if_neg hc] at h
      cases h

theorem coerceDateCols_missing (cols : List String) (f : Frame) (c : String)
    (hmem : c ∈ cols) (hmiss : hasCol f c = false) :
    coerceDateCols cols f = Except.error 1 := by
  induction cols generalizing f with
  | nil => cases hmem
  | cons a tl ih =>
    by_cases ha : hasCol f a
    · have hca : ¬(c = a) := by
        intro hce
        rw [hce, ha] at hmiss
        cases hmiss
      have hc' : c ∈ tl := by
        rcases List.mem_cons.mp hmem with h' | h'
        · exact absurd h' hca
        · exact h'
      have hmiss' : hasCol (mapCol f a toDatetimeCell) c = false := by
        simpa [hasCol, mapCol_cols] using hmiss
      simp only [coerceDateCols, if_pos ha]
      exact ih (mapCol f a toDatetimeCell) hc' hmiss'
    · simp only [coerceDateCols, if_neg ha]

/-- C8: the pipeline produces exactly one normalized document per raw
record — whenever index_elastic.process_csv succeeds it returns as many
records as the frame has rows, and dadospop.parse_csv_file returns one
record per data row. -/
theorem C8_one_document_per_row :
    (∀ (f : Frame) (docs : List Row), process_csv f = Except.ok docs →
      docs.length = f.rows.length) ∧
    (∀ (header : List String) (rows : List (List String)),
      (parse_csv_file header rows).length = rows.length) := by
  constructor
  · intro f docs h
    unfold process_csv at h
    cases hc : coerceDateCols date_columns f with
    | error e => rw [hc] at h; cases h
    | ok f1 =>
      rw [hc] at h
      cases h
      rw [mapCells_rows_length, mapCells_rows_length, dataObitoStep_rows_length,
        geoStep_rows_length]
      exact coerceDateCols_length date_columns f f1 hc
  · intro header rows
    simp [parse_csv_file]

/-- Witness for C8 on a concrete one-row frame holding the five raw
date values. -/
theorem C8_one_document_per_row_witness :
    process_csv
      { cols := date_columns
        rows := [[("DTOBITO", PyVal.pstr "01012020"),
                  ("DTNASC", PyVal.pstr "02012020"),
                  ("DTATESTADO", PyVal.pstr "03012020"),
                  ("DTCADASTRO", PyVal.pstr "04012020"),
                  ("DTRECEBIM", PyVal.pstr "05012020")]] } =
      Except.ok [[("DTOBITO", PyVal.pstr "2020-01-01T00:00:00"),
                  ("DTNASC", PyVal.pstr "2020-01-02T00:00:00"),
                  ("DTATESTADO", PyVal.pstr "2020-01-03T00:00:00"),
                  ("DTCADASTRO", PyVal.pstr "2020-01-04T00:00:00"),
                  ("DTRECEBIM", PyVal.pstr "2020-01-05T00:00:00"),
                  ("data_obito", PyVal.pstr "2020-01-01T00:00:00")]] ∧
    ([[("DTOBITO", PyVal.pstr "2020-01-01T00:00:00"),
       ("DTNASC", PyVal.pstr "2020-01-02T00:00:00"),
       ("DTATESTADO", PyVal.pstr "2020-01-03T00:00:00"),
       ("DTCADASTRO", PyVal.pstr "2020-01-04T00:00:00"),
       ("DTRECEBIM", PyVal.pstr "2020-01-05T00:00:00"),
       ("data_obito", PyVal.pstr "2020-01-01T00:00:00")]] : List Row).length =
      ({ cols := date_columns
         rows := [[("DTOBITO", PyVal.pstr "01012020"),
                   ("DTNASC", PyVal.pstr "02012020"),
                   ("DTATESTADO", PyVal.pstr "03012020"),
                   ("DTCADASTRO", PyVal.pstr "04012020"),
                   ("DTRECEBIM", PyVal.pstr "05012020")]] } : Frame).rows.length :=
  ⟨by rfl, C8_one_document_per_row.1 _ _ (by rfl)⟩

/-- C10: the five date columns are coerced unconditionally, so a frame
missing any one of them makes process_csv fail as a whole with exit
code 1 (the KeyError is caught by the catch-all handler and turned into
a fatal exit), rather than degrading that field to null per record. -/
theorem C10_missing_date_column_fatal (f : Frame) (c : String)
    (hmem : c ∈ date_columns) (hmiss : hasCol f c = false) :
    process_csv f = Except.error 1 := by
  unfold process_csv
  rw [coerceDateCols_missing date_columns f c hmem hmiss]

/-- Witness for C10 on a frame whose only column is HORAOBITO. -/
theorem C10_missing_date_column_fatal_witness :
    ("DTOBITO" ∈ date_columns) ∧
    hasCol { cols := ["HORAOBITO"], rows := [] } "DTOBITO" = false ∧
    process_csv { cols := ["HORAOBITO"], rows := [] } = Except.error 1 :=
  ⟨by decide, by decide,
    C10_missing_date_column_fatal { cols := ["HORAOBITO"], rows := [] }
      "DTOBITO" (by decide) (by decide)⟩

/-- C3: evaluating the full pipeline on a record whose DTOBITO raw
value "99999999" is unparseable shows the sentinel leak — the coerced
NaT is an instance of datetime, so convert_to_serializable stringifies
it to "NaT" before the nan/NaT replacement runs, and the final
document carries the string "NaT" in every failed date field instead
of the explicit null the claim requires (data_obito, computed with a
notna guard, does become null). -/
theorem C3_nat_sentinel_stringified :
    process_csv
      { cols := date_columns
        rows := [[("DTOBITO", PyVal.pstr "99999999"),
                  ("DTNASC", PyVal.pstr "01012020"),
                  ("DTATESTADO", PyVal.pstr "99999999"),
                  ("DTCADASTRO", PyVal.pstr "99999999"),
                  ("DTRECEBIM", PyVal.pstr "99999999")]] } =
      Except.ok [[("DTOBITO", PyVal.pstr "NaT"),
                  ("DTNASC", PyVal.pstr "2020-01-01T00:00:00"),
                  ("DTATESTADO", PyVal.pstr "NaT"),
                  ("DTCADASTRO", PyVal.pstr "NaT"),
                  ("DTRECEBIM", PyVal.pstr "NaT"),
                  ("data_obito", PyVal.pnone)]] ∧
    PyVal.pstr "NaT" ≠ PyVal.pnone := by
  exact ⟨by rfl, by decide⟩
